import Mathlib

/-!
Shallow embedding of the aerospace-layout-manager core (src/unnamed/part_000).

The script drives the aerospace window-manager CLI.  Its effectful calls are
modelled as an explicit trace (`List Call`); the results of the queries it
makes against the live session (window ids, workspace membership, process
liveness, display inventory) are supplied as oracle parameters, since they are
inputs from the outside world.  Pure computations (display resolution,
fraction arithmetic, tree traversal order) are translated directly.
-/

namespace ALM

/-- Orientation of a group or of the layout root (source type `Orientation`). -/
inductive Orientation where
  | horizontal
  | vertical
  deriving DecidableEq, Repr

/-- Resize dimension (the `"width" | "height"` strings of the source). -/
inductive Dimension where
  | width
  | height
  deriving DecidableEq, Repr

/-- The aerospace layout modes accepted by the script (source type `WorkspaceLayout`). -/
inductive WorkspaceLayout where
  | h_tiles
  | v_tiles
  | h_accordion
  | v_accordion
  | tiles
  | accordion
  | horizontal
  | vertical
  | tiling
  | floating
  deriving DecidableEq, Repr

/-- Result of parsing a `Size` string: the source computes
`size.split("/").map(Number)`, so each component is a number or NaN.
`none` models NaN (a non-number component); `some n` models the
nonnegative integer `n`.  The falsy test `!x` of the source rejects both
NaN and 0, see `jsFalsyNum`. -/
structure Size where
  num : Option Nat
  den : Option Nat
  deriving DecidableEq, Repr

/-- JavaScript falsiness of a parsed numeric component: `!x` is true for
NaN (here `none`) and for 0. -/
def jsFalsyNum : Option Nat → Bool
  | none => true
  | some n => n == 0

/-- A node of the layout tree (source type `LayoutItem`).  The source
discriminates structurally on the presence of a `bundleId` versus a
`windows` field; here that union is an explicit tagged sum. -/
inductive LayoutItem where
  | window (bundleId : String) (size : Option Size)
  | group (orientation : Orientation) (size : Option Size) (windows : List LayoutItem)

/-- The display aliases recognised in a layout's `display` field. -/
inductive DisplayAlias where
  | main
  | secondary
  | external
  | internal
  deriving DecidableEq, Repr

/-- The `display` field of a layout after the dispatch in `selectDisplay`:
a recognised alias, a non-numeric string used as a name pattern, or a
numeric id. -/
inductive DisplaySelector where
  | aliasSel (a : DisplayAlias)
  | byName (pattern : String)
  | byId (id : Nat)
  deriving DecidableEq, Repr

/-- A layout entry of the configuration (source type `Layout`). -/
structure Layout where
  workspace : String
  layout : WorkspaceLayout
  orientation : Orientation
  windows : List LayoutItem
  display : Option DisplaySelector

/-- One attached display as produced by `getDisplays` (source type `DisplayInfo`). -/
structure DisplayInfo where
  id : Option Nat
  name : String
  width : Nat
  height : Nat
  isMain : Bool
  isInternal : Bool
  deriving DecidableEq, Repr

/-- One effectful aerospace/`open` invocation issued by the script.  Queries
(`list-windows`, `system_profiler`) are not commands and are modelled as
oracle inputs instead.  `moveInDirectionLeft` (`aerospace move left`) is part
of the window-manager command surface but is never emitted by the script;
it is included so that its absence from every trace is expressible. -/
inductive Call where
  | moveWindow (windowId : String) (workspace : String)
  | flattenWorkspace (workspace : String)
  | switchToWorkspace (workspace : String)
  | focusWindow (windowId : String)
  | joinWithPrevious (windowId : String)
  | moveInDirectionLeft (windowId : String)
  | setLayout (mode : WorkspaceLayout) (windowId : String)
  | resize (windowId : Option String) (dimension : Dimension) (pixels : Nat)
  | launch (bundleId : String)
  deriving DecidableEq, Repr

/-! ## Display resolver -/

/-- Source `getDisplayByAlias`.  `Except.error` models a `throw`; the
`List String` collects the `console.log` warnings emitted on the fallback
paths; the `Option DisplayInfo` is the returned display (`none` models
returning `undefined`). -/
def getDisplayByAlias (al : DisplayAlias) (displays : List DisplayInfo) :
    Except String (List String × Option DisplayInfo) :=
  match al with
  | .main => .ok ([], displays.find? (fun d => d.isMain))
  | .secondary =>
      if displays.length < 2 then
        .ok (["Alias secondary is used, but only one display found. Defaulting to the main display."],
          displays.find? (fun d => d.isMain))
      else if displays.length > 2 then
        .error "Alias secondary is used, but multiple secondary displays are found. Please specify an exact display name or use a different alias."
      else
        .ok ([], displays.find? (fun d => !d.isMain))
  | .external =>
      let externalDisplays := displays.filter (fun d => !d.isInternal)
      if externalDisplays.length == 0 then
        .ok (["Alias external is used, but no external displays found. Defaulting to the main display."],
          displays.find? (fun d => d.isMain))
      else if externalDisplays.length > 1 then
        .error "Multiple external displays found. Please specify an exact display name or use a different alias."
      else
        .ok ([], externalDisplays.head?)
  | .internal => .ok ([], displays.find? (fun d => d.isInternal))

/-- Source `getDisplayByName`.  The case-insensitive regular-expression test
`new RegExp(regExp, "i").test(d.name)` is an oracle parameter `nameTest`. -/
def getDisplayByName (nameTest : String → String → Bool) (pattern : String)
    (displays : List DisplayInfo) : Option DisplayInfo :=
  displays.find? (fun d => nameTest pattern d.name)

/-- Source `getDisplayById`. -/
def getDisplayById (i : Nat) (displays : List DisplayInfo) : Option DisplayInfo :=
  displays.find? (fun d => d.id == some i)

/-- Source `selectDisplay`.  When `layout.display` is absent the dispatch
block is skipped and `selectedDisplay` stays undefined, so control falls
through to the `throw` at the end; `Except.error` models that throw. -/
def selectDisplay (nameTest : String → String → Bool)
    (selector : Option DisplaySelector) (displays : List DisplayInfo) :
    Except String (List String × DisplayInfo) := do
  let (warnings, selected) ←
    match selector with
    | none => pure (([] : List String), (none : Option DisplayInfo))
    | some (.aliasSel a) => getDisplayByAlias a displays
    | some (.byName p) => pure ([], getDisplayByName nameTest p displays)
    | some (.byId i) => pure ([], getDisplayById i displays)
  match selected with
  | none => .error "Display not found. Please specify a valid display name, alias, or ID. Defaulting to the main display."
  | some d => pure (warnings, d)

/-- Models the guard `if (!displays) throw new Error("No displays found...")`
that follows `getDisplays()` in the main body.  `getDisplays` always returns
a JavaScript array, and boolean negation of an array value is false for
every array, the empty array included, so the guard can never fire. -/
def noDisplaysGuardFires (_displays : List DisplayInfo) : Bool := false

/-! ## Window locator -/

/-- Poll ceiling of `ensureWindow`: `for await (const i of Array(30))`. -/
def maxAttempts : Nat := 30

/-- Sleep between poll attempts, in milliseconds: `setTimeout(resolve, 100)`. -/
def pollIntervalMs : Nat := 100

/-- The poll loop of `ensureWindow`: `find k` is the oracle giving the result
of `getWindowId(bundleId)` at the k-th attempt (`none` models `null`); the
loop returns the first id found within `fuel` attempts starting at attempt
`k`, and `none` when the fuel is exhausted. -/
def ensureAttempts (find : Nat → Option String) : Nat → Nat → Option String
  | 0, _ => none
  | fuel + 1, k =>
      match find k with
      | some id => some id
      | none => ensureAttempts find fuel (k + 1)

/-- Source `ensureWindow`, poll part: poll `getWindowId` up to
`maxAttempts` times; return the first window id found, or `none` (the
source returns `null`) when every attempt fails. -/
def ensureWindowId (find : Nat → Option String) : Option String :=
  ensureAttempts find maxAttempts 0

/-- Source `launchIfNotRunning`.  Its liveness probe is the pipeline
`osascript -e "application id ... is running" | grep -q true`, whose text
output is compared against "true".  `grep -q` prints nothing, so the text
is always the empty string and `isRunning` is always false.  Hence, when
the application is running (the probe pipeline exits 0, oracle `running`
true), `open -b` is issued unconditionally; when it is not running,
`grep -q` exits 1 and the pipeline - which has no `.nothrow()` - throws:
the launch line is never reached and the exception propagates to the top,
aborting the run.  `.error` models that throw. -/
def launchIfNotRunning (running : Bool) (bundleId : String) :
    Except String (List Call) :=
  if running then .ok [.launch bundleId]
  else .error "grep -q true exited with code 1"

/-- Source `ensureWindow`: `launchIfNotRunning`, then the poll loop.  The
first component is the calls issued; the second is the thrown error or
the poll result (the source returns `windowId` or `null`). -/
def ensureWindow (running : Bool) (find : Nat → Option String) (bundleId : String) :
    List Call × Except String (Option String) :=
  match launchIfNotRunning running bundleId with
  | .error e => ([], .error e)
  | .ok launchCalls => (launchCalls, .ok (ensureWindowId find))

/-! ## Passes -/

/-- Source `clearWorkspace`: move every window currently in the target
workspace (given by the oracle list `wins` of window ids) to the stash
workspace; a record with a falsy (empty) window id is skipped. -/
def clearWorkspace (stash : String) (wins : List String) : List Call :=
  wins.filterMap (fun w => if w == "" then none else some (.moveWindow w stash))

/-- Source `setWorkspaceLayout`: list the windows of the workspace (oracle
`wsWindows`); when non-empty, apply the layout mode to the first window. -/
def setWorkspaceLayout (wsWindows : List String) (mode : WorkspaceLayout) : List Call :=
  match wsWindows with
  | [] => []
  | w :: _ => [.setLayout mode w]

/-- Source `traverseTreeMove` (Pass 2, materialize): depth-first walk; at a
window leaf, `ensureWindow`, and when an id was found, move it to the
target workspace; at a group, recurse into its children.  The second
component is the pending thrown exception: a throw inside `ensureWindow`
(a not-running application, see `launchIfNotRunning`) stops the walk -
and, in `mainRun`, the whole run - while the calls already issued stay in
the first component. -/
def traverseTreeMove (running : String → Bool) (find : String → Nat → Option String)
    (targetWs : String) : List LayoutItem → List Call × Option String
  | [] => ([], none)
  | .window b _ :: rest =>
      match ensureWindow (running b) (find b) b with
      | (calls, .error e) => (calls, some e)
      | (calls, .ok idOpt) =>
          match traverseTreeMove running find targetWs rest with
          | (tailCalls, err) =>
              (calls ++
                (match idOpt with
                 | some id => [Call.moveWindow id targetWs]
                 | none => []) ++ tailCalls, err)
  | .group _ _ children :: rest =>
      match traverseTreeMove running find targetWs children with
      | (childCalls, some e) => (childCalls, some e)
      | (childCalls, none) =>
          match traverseTreeMove running find targetWs rest with
          | (tailCalls, err) => (childCalls ++ tailCalls, err)

/-- Source `traverseTreeReposition` (Pass 3, arrange).  `winId` is the
oracle for `getWindowId`; `wsWindows` is the oracle for the
`getWindowsInWorkspace` query made by `setWorkspaceLayout`.  The walk
carries the recursion depth and the sibling index `i`; at `depth = 0`,
`i = 0` it first flattens the workspace and sets the workspace layout; a
window leaf is focused and joined with the previous window exactly when
`depth > 0` and `i > 0` and its id resolves; a group recurses at depth + 1
with the sibling index reset to 0. -/
def traverseTreeReposition (winId : String → Option String) (wsWindows : List String)
    (targetWs : String) (mode : WorkspaceLayout) :
    List LayoutItem → Nat → Nat → List Call
  | [], _, _ => []
  | .window b _ :: rest, depth, i =>
      (if depth == 0 && i == 0 then
        Call.flattenWorkspace targetWs :: setWorkspaceLayout wsWindows mode
      else []) ++
      (if depth > 0 && i > 0 then
        match winId b with
        | some id => [.focusWindow id, .joinWithPrevious id]
        | none => []
      else []) ++
      traverseTreeReposition winId wsWindows targetWs mode rest depth (i + 1)
  | .group _ _ children :: rest, depth, i =>
      (if depth == 0 && i == 0 then
        Call.flattenWorkspace targetWs :: setWorkspaceLayout wsWindows mode
      else []) ++
      traverseTreeReposition winId wsWindows targetWs mode children (depth + 1) 0 ++
      traverseTreeReposition winId wsWindows targetWs mode rest depth (i + 1)

/-- The pixel value computed by `resizeWindow`, modelled as the exact
rational floor of `screenDimension * numerator / denominator` (natural
division).  The source evaluates
`Math.floor(screenDimension * (numerator / denominator))` in IEEE-754
binary64 arithmetic, which agrees with the exact floor whenever the
double evaluation rounds to the same integer - true of every concrete
instance proved below, whose fractions are dyadic (halves) and hence
float-exact - but can differ by one in general (1080 times 13/45 floors
to 311 in doubles against 312 exactly); statements quantifying over all
inputs must therefore not be read through this definition. -/
def newWidth (screenDimension numerator denominator : Nat) : Nat :=
  screenDimension * numerator / denominator

/-- Source `resizeWindow`.  `screenW`/`screenH` are `getDisplayWidth` /
`getDisplayHeight` (`none` models `null` or NaN).  The guard
`if (!screenDimension || !numerator || !denominator) return` drops the call
when any of the three is null, NaN or 0; otherwise the resize command is
issued — note the source does not guard against a null window id, so the
command is emitted with whatever `windowId` it was handed. -/
def resizeWindow (screenW screenH : Option Nat) (windowId : Option String)
    (size : Size) (dimension : Dimension) : List Call :=
  let screenDimension : Option Nat :=
    match dimension with
    | .width => screenW
    | .height => screenH
  if jsFalsyNum screenDimension || jsFalsyNum size.num || jsFalsyNum size.den then
    []
  else
    [.resize windowId dimension
      (newWidth (screenDimension.getD 0) (size.num.getD 0) (size.den.getD 0))]

/-- Dimension selected by an orientation in a horizontal/vertical context. -/
def dimensionOfOrientation : Orientation → Dimension
  | .horizontal => .width
  | .vertical => .height

/-- Source `getDimension`: a group contributes its own orientation; any
other item falls back to the layout's root orientation. -/
def getDimension (rootOrientation : Orientation) : LayoutItem → Dimension
  | .group o _ _ => dimensionOfOrientation o
  | .window _ _ => dimensionOfOrientation rootOrientation

/-- The calls `traverseTreeResize` issues for one window leaf: when the
leaf carries a size, resize it along `getDimension(parent ?? item)`;
otherwise nothing. -/
def windowResizeCalls (winId : String → Option String) (screenW screenH : Option Nat)
    (rootOrientation : Orientation) (b : String) (sz? : Option Size)
    (parent : Option LayoutItem) : List Call :=
  match sz? with
  | some sz =>
      resizeWindow screenW screenH (winId b) sz
        (getDimension rootOrientation (parent.getD (.window b sz?)))
  | none => []

/-- The representative resize `traverseTreeResize` issues at a group node:
when the group carries a size and its first child is a window, resize that
first child's window along the parent's dimension when a parent exists,
else along the layout root orientation; otherwise nothing. -/
def groupHeadResizeCalls (winId : String → Option String) (screenW screenH : Option Nat)
    (rootOrientation : Orientation) (sz? : Option Size) (children : List LayoutItem)
    (parent : Option LayoutItem) : List Call :=
  match sz?, children with
  | some sz, .window b _ :: _ =>
      resizeWindow screenW screenH (winId b) sz
        (match parent with
         | some p => getDimension rootOrientation p
         | none => dimensionOfOrientation rootOrientation)
  | _, _ => []

/-- Source `traverseTreeResize` (Pass 5, resize).  `parent` is the enclosing
group (`none` at the root).  A window leaf carrying a size is resized along
`getDimension(parent ?? item)`.  A group carrying a size whose first child
is a window resizes that first child along the parent's dimension when a
parent exists, else along the layout root orientation; the walk then
recurses into the group's children with the group as the new parent. -/
def traverseTreeResize (winId : String → Option String) (screenW screenH : Option Nat)
    (rootOrientation : Orientation) :
    List LayoutItem → Option LayoutItem → List Call
  | [], _ => []
  | .window b sz? :: rest, parent =>
      windowResizeCalls winId screenW screenH rootOrientation b sz? parent ++
      traverseTreeResize winId screenW screenH rootOrientation rest parent
  | .group o sz? children :: rest, parent =>
      groupHeadResizeCalls winId screenW screenH rootOrientation sz? children parent ++
      traverseTreeResize winId screenW screenH rootOrientation children
        (some (.group o sz? children)) ++
      traverseTreeResize winId screenW screenH rootOrientation rest parent

/-- The main body of the script after display selection (source lines
`await clearWorkspace ... await traverseTreeResize`): stash, materialize,
arrange, switch workspace, resize.  `stashWindows` is the workspace content
at stash time and `arrangeWindows` the content when `setWorkspaceLayout`
queries it (the two queries happen at different times of the run).  A
throw inside the materialize pass propagates out of the un-caught top
level `await`, so the later passes never run: the second component
carries that error and the first the calls issued up to it. -/
def mainRun (stash : String) (l : Layout)
    (stashWindows arrangeWindows : List String)
    (running : String → Bool) (find : String → Nat → Option String)
    (winId : String → Option String) (screenW screenH : Option Nat) :
    List Call × Option String :=
  match traverseTreeMove running find l.workspace l.windows with
  | (moveCalls, some e) => (clearWorkspace stash stashWindows ++ moveCalls, some e)
  | (moveCalls, none) =>
      (clearWorkspace stash stashWindows ++ moveCalls ++
        traverseTreeReposition winId arrangeWindows l.workspace l.layout l.windows 0 0 ++
        [.switchToWorkspace l.workspace] ++
        traverseTreeResize winId screenW screenH l.orientation l.windows none, none)

/-! ## Trace observations -/

/-- Is this call a join (`aerospace join-with ... left`)? -/
def isJoin : Call → Bool
  | .joinWithPrevious _ => true
  | _ => false

/-- Is this call a directional move (`aerospace move left`)? -/
def isMoveLeft : Call → Bool
  | .moveInDirectionLeft _ => true
  | _ => false

/-- Is this call a move to a workspace? -/
def isMove : Call → Bool
  | .moveWindow _ _ => true
  | _ => false

/-- Is this call a resize? -/
def isResize : Call → Bool
  | .resize _ _ _ => true
  | _ => false

/-- The bundle ids of the window leaves of a tree in depth-first pre-order. -/
def preorderBundleIds : List LayoutItem → List String
  | [] => []
  | .window b _ :: rest => b :: preorderBundleIds rest
  | .group _ _ children :: rest => preorderBundleIds children ++ preorderBundleIds rest

/-- Is this call an application launch (`open -b`)? -/
def isLaunch : Call → Bool
  | .launch _ => true
  | _ => false

/-- The calls the arrange pass emits for one window sibling at depth at
least 1 and sibling index at least 1: focus then join when the id
resolves, nothing otherwise. -/
def joinCallsFor (winId : String → Option String) (b : String) : List Call :=
  match winId b with
  | some id => [.focusWindow id, .joinWithPrevious id]
  | none => []

/-! ## Concrete fixtures used by witnesses and counterexamples -/

/-- A concrete window-id oracle: applications A, B, C have one window
each; anything else has none. -/
def exWinId : String → Option String :=
  fun b => if b = "A" then some "w1" else if b = "B" then some "w2"
    else if b = "C" then some "w3" else none

/-- Concrete poll oracle: every attempt returns what `exWinId` returns. -/
def exFind : String → Nat → Option String := fun b _ => exWinId b

/-- Concrete liveness oracle: every application is already running. -/
def exRunning : String → Bool := fun _ => true

/-- The layout of the end-to-end scenario: workspace 1, mode v_tiles,
two root window leaves A and B, no sizes. -/
def layoutAB : Layout :=
  { workspace := "1", layout := .v_tiles, orientation := .horizontal,
    windows := [.window "A" none, .window "B" none],
    display := some (.aliasSel .main) }

/-- The full run of the end-to-end scenario: both applications are
already running (so the liveness probe pipelines exit 0 and no throw
occurs), one stale window w0 sits in workspace 1 at stash time, and
after materialization the workspace holds w1 and w2. -/
def runAB : List Call × Option String :=
  mainRun "S" layoutAB ["w0"] ["w1", "w2"] exRunning exFind exWinId (some 1920) (some 1080)

/-- A main internal 1920x1080 display. -/
def dMain : DisplayInfo := ⟨some 1, "Built-in Retina Display", 1920, 1080, true, true⟩

/-- A non-main external display. -/
def dExt : DisplayInfo := ⟨some 2, "LG HDR 4K", 2560, 1440, false, false⟩

/-- A second non-main external display. -/
def dExt2 : DisplayInfo := ⟨some 3, "DELL U2720Q", 3840, 2160, false, false⟩

/-! ## Helper lemmas -/

/-- At depth at least 1 and sibling index at least 1, a pure window
sibling list arranges to exactly the focus/join pairs of its members, in
declared order. -/
theorem repo_windows_deep (winId : String → Option String) (wsWins : List String)
    (ws : String) (mode : WorkspaceLayout) :
    ∀ (bs : List (String × Option Size)) (d i : Nat), 1 ≤ d → 1 ≤ i →
      traverseTreeReposition winId wsWins ws mode
          (bs.map (fun b => .window b.1 b.2)) d i
        = bs.flatMap (fun b => joinCallsFor winId b.1) := by
  intro bs
  induction bs with
  | nil => intro d i _ _; simp [traverseTreeReposition]
  | cons b rest ih =>
      intro d i hd hi
      simp only [List.map_cons, traverseTreeReposition, List.flatMap_cons]
      rw [ih d (i + 1) hd (by omega)]
      have hd0 : (d == 0) = false := by simp; omega
      have hpos : (decide (0 < d) && decide (0 < i)) = true := by simp; omega
      simp [hd0, hpos, joinCallsFor]

/-- At depth 0 a pure window sibling list produces no join at any sibling
index. -/
theorem repo_windows_root (winId : String → Option String) (wsWins : List String)
    (ws : String) (mode : WorkspaceLayout) :
    ∀ (bs : List (String × Option Size)) (i : Nat),
      (traverseTreeReposition winId wsWins ws mode
          (bs.map (fun b => .window b.1 b.2)) 0 i).countP isJoin = 0 := by
  intro bs
  induction bs with
  | nil => intro i; simp [traverseTreeReposition]
  | cons b rest ih =>
      intro i
      simp only [List.map_cons, traverseTreeReposition, List.countP_append]
      rw [ih (i + 1)]
      cases wsWins <;> split <;> simp_all [setWorkspaceLayout, isJoin]

/-- The arrange pass never emits a directional move, on any tree, at any
depth or sibling index. -/
theorem no_moveLeft_reposition (winId : String → Option String) (wsWindows : List String)
    (ws : String) (mode : WorkspaceLayout) (t : List LayoutItem) (d i : Nat) :
    (traverseTreeReposition winId wsWindows ws mode t d i).countP isMoveLeft = 0 := by
  induction t, d, i using traverseTreeReposition.induct winId wsWindows ws mode with
  | case1 => simp [traverseTreeReposition]
  | case2 b s rest depth i ih =>
      simp only [traverseTreeReposition, List.countP_append]
      cases hw : winId b <;> cases wsWindows <;>
        · split <;> split <;>
            simp_all [setWorkspaceLayout, isMoveLeft]
  | case3 o s children rest depth i ih1 ih2 =>
      simp only [traverseTreeReposition, List.countP_append]
      cases wsWindows <;>
        · split <;> simp_all [setWorkspaceLayout, isMoveLeft]

/-- Evaluation of the end-to-end scenario run: the stale window is
stashed; `ensure` issues `open -b` for A (the broken liveness probe never
reports running) and moves A's window, likewise for B; the workspace is
flattened, the layout mode is applied to the first workspace window, and
the run switches to the workspace without error; no focus, join or resize
is emitted. -/
theorem runAB_eval :
    runAB = ([.moveWindow "w0" "S", .launch "A", .moveWindow "w1" "1",
      .launch "B", .moveWindow "w2" "1", .flattenWorkspace "1",
      .setLayout .v_tiles "w1", .switchToWorkspace "1"], none) := by
  simp [runAB, mainRun, layoutAB, clearWorkspace, traverseTreeMove, ensureWindow,
    launchIfNotRunning, traverseTreeReposition, traverseTreeResize, windowResizeCalls,
    ensureWindowId, ensureAttempts, maxAttempts, setWorkspaceLayout, exWinId, exFind,
    exRunning]

/-- The poll loop finds nothing exactly when every attempt in its fuel
window finds nothing. -/
theorem ensureAttempts_none_iff (find : Nat → Option String) :
    ∀ (fuel start : Nat), ensureAttempts find fuel start = none ↔
      ∀ k, start ≤ k → k < start + fuel → find k = none := by
  intro fuel
  induction fuel with
  | zero => intro start; simp [ensureAttempts]; omega
  | succ n ih =>
      intro start
      simp only [ensureAttempts]
      cases hf : find start with
      | some id =>
          simp only [reduceCtorEq, false_iff]
          intro h
          exact absurd (h start (le_refl start) (by omega)) (by simp [hf])
      | none =>
          rw [ih (start + 1)]
          constructor
          · intro h k hk1 hk2
            rcases Nat.eq_or_lt_of_le hk1 with rfl | hlt
            · exact hf
            · exact h k hlt (by omega)
          · intro h k hk1 hk2
            exact h k (by omega) (by omega)

/-- The calls of the materialize pass when every application is running:
one launch per window leaf, then its move when the poll succeeds, in
depth-first pre-order. -/
def allRunningTrace (find : String → Nat → Option String) (ws : String) :
    List LayoutItem → List Call
  | [] => []
  | .window b _ :: rest =>
      Call.launch b ::
        ((match ensureWindowId (find b) with
          | some id => [Call.moveWindow id ws]
          | none => []) ++ allRunningTrace find ws rest)
  | .group _ _ children :: rest =>
      allRunningTrace find ws children ++ allRunningTrace find ws rest

/-- With every application running no probe pipeline throws, and the
materialize pass produces exactly `allRunningTrace` with no error. -/
theorem move_allRunning_eq (find : String → Nat → Option String)
    (ws : String) (t : List LayoutItem) :
    traverseTreeMove (fun _ => true) find ws t = (allRunningTrace find ws t, none) := by
  induction t using traverseTreeMove.induct (fun _ => true) find ws with
  | case1 => simp [traverseTreeMove, allRunningTrace]
  | case2 b s rest calls e hens =>
      simp [ensureWindow, launchIfNotRunning] at hens
  | case3 b s rest calls idOpt hens tailCalls err htail ih =>
      rw [traverseTreeMove, ih]
      simp [ensureWindow, launchIfNotRunning, allRunningTrace]
  | case4 o s children rest childCalls e hchild ihc =>
      rw [ihc] at hchild
      simp at hchild
  | case5 o s children rest childCalls hchild tailCalls err htail ihc ihr =>
      rw [traverseTreeMove, ihc, ihr]
      simp [allRunningTrace]

/-- With every application running (so no probe pipeline throws), the
materialize pass finishes without error, its moves are exactly one move
per pre-order window leaf whose poll succeeds, and its launches are
exactly one `open -b` per pre-order window leaf - the broken probe never
reports an application as running, so every leaf is launched. -/
theorem move_allRunning_spec (find : String → Nat → Option String)
    (ws : String) (t : List LayoutItem) :
    (traverseTreeMove (fun _ => true) find ws t).2 = none
    ∧ ((traverseTreeMove (fun _ => true) find ws t).1).filter isMove
        = (preorderBundleIds t).filterMap
            (fun b => (ensureWindowId (find b)).map (fun id => Call.moveWindow id ws))
    ∧ ((traverseTreeMove (fun _ => true) find ws t).1).filter isLaunch
        = (preorderBundleIds t).map Call.launch := by
  rw [move_allRunning_eq]
  refine ⟨rfl, ?_, ?_⟩
  · induction t using allRunningTrace.induct find ws with
    | case1 => simp [allRunningTrace, preorderBundleIds]
    | case2 b s rest ih =>
        simp only [allRunningTrace, preorderBundleIds, List.filter_cons, List.filter_append,
          List.filterMap_cons]
        rw [ih]
        cases he : ensureWindowId (find b) <;> simp [isMove, he]
    | case3 o s children rest ih1 ih2 =>
        simp only [allRunningTrace, preorderBundleIds, List.filter_append,
          List.filterMap_append]
        rw [ih1, ih2]
  · induction t using allRunningTrace.induct find ws with
    | case1 => simp [allRunningTrace, preorderBundleIds]
    | case2 b s rest ih =>
        simp only [allRunningTrace, preorderBundleIds, List.filter_cons, List.filter_append,
          List.map_cons]
        rw [ih]
        cases he : ensureWindowId (find b) <;> simp [isLaunch, he]
    | case3 o s children rest ih1 ih2 =>
        simp only [allRunningTrace, preorderBundleIds, List.filter_append, List.map_append]
        rw [ih1, ih2]

/-! ## Claim theorems -/

/-- Claim C1, counterexample.  The claim says every sibling list of length
at least 2, the root sequence included, gets exactly one join at index 1.
For the root sibling list of two window leaves A, B with resolving window
ids, the arrange pass issues no join at all: the join branch requires
depth strictly greater than 0 and the root sits at depth 0. -/
theorem arrange_root_pair_issues_no_join :
    ¬ ((traverseTreeReposition exWinId ["w1", "w2"] "1" .v_tiles
        [.window "A" none, .window "B" none] 0 0).countP isJoin = 1) := by
  have h : traverseTreeReposition exWinId ["w1", "w2"] "1" .v_tiles
      [.window "A" none, .window "B" none] 0 0
      = [.flattenWorkspace "1", .setLayout .v_tiles "w1"] := by
    simp [traverseTreeReposition, setWorkspaceLayout, exWinId]
  rw [h]
  decide

/-- Claim C1 (corrected).  In the Arrange pass, for a sibling list of
window leaves at depth at least 1, the sibling at index 0 receives no
arrange operation and every sibling at index at least 1 whose window id
resolves is focused and then joined left, in left-to-right declared order
(so n resolving siblings yield n - 1 joins, not one join plus n - 2
move-lefts); sibling lists of the root sequence (depth 0) receive no join
at all; and no move-left operation is ever issued on any tree. -/
theorem arrange_pass_join_discipline :
    (∀ (winId : String → Option String) (wsWins : List String) (ws : String)
        (mode : WorkspaceLayout) (bs : List (String × Option Size)) (d : Nat), 1 ≤ d →
          traverseTreeReposition winId wsWins ws mode
              (bs.map (fun b => .window b.1 b.2)) d 0
            = (bs.drop 1).flatMap (fun b => joinCallsFor winId b.1))
    ∧ (∀ (winId : String → Option String) (wsWins : List String) (ws : String)
        (mode : WorkspaceLayout) (bs : List (String × Option Size)),
          (traverseTreeReposition winId wsWins ws mode
              (bs.map (fun b => .window b.1 b.2)) 0 0).countP isJoin = 0)
    ∧ (∀ (winId : String → Option String) (wsWins : List String) (ws : String)
        (mode : WorkspaceLayout) (t : List LayoutItem) (d i : Nat),
          (traverseTreeReposition winId wsWins ws mode t d i).countP isMoveLeft = 0) := by
  refine ⟨?_, ?_, ?_⟩
  · intro winId wsWins ws mode bs d hd
    cases bs with
    | nil => simp [traverseTreeReposition]
    | cons b rest =>
        simp only [List.map_cons, traverseTreeReposition, List.drop_succ_cons, List.drop_zero]
        rw [repo_windows_deep winId wsWins ws mode rest d 1 hd (by omega)]
        have hd0 : (d == 0) = false := by simp; omega
        simp [hd0]
  · intro winId wsWins ws mode bs
    exact repo_windows_root winId wsWins ws mode bs 0
  · exact fun winId wsWins ws mode t d i => no_moveLeft_reposition winId wsWins ws mode t d i

/-- Claim C1, witness: a group content of three window leaves at depth 1
arranges to focus/join of the second and third leaves, in order. -/
theorem arrange_pass_join_discipline_witness :
    (1 ≤ 1) ∧
    traverseTreeReposition exWinId [] "1" .v_tiles
        ([("A", (none : Option Size)), ("B", none), ("C", none)].map
          (fun b => .window b.1 b.2)) 1 0
      = [.focusWindow "w2", .joinWithPrevious "w2", .focusWindow "w3", .joinWithPrevious "w3"] := by
  refine ⟨le_refl 1, ?_⟩
  rw [arrange_pass_join_discipline.1 exWinId [] "1" .v_tiles
    [("A", none), ("B", none), ("C", none)] 1 (le_refl 1)]
  simp [joinCallsFor, exWinId]

/-- Claim C2, counterexample.  The claimed call sequence contains a focus
of B followed by a join of B and no launch requests; the actual run of
the scenario never joins (the two leaves sit at depth 0, where the
arrange pass issues no join) and launches both applications (the broken
liveness probe never reports them as running). -/
theorem end_to_end_claimed_sequence_false :
    runAB.1 ≠ [.moveWindow "w0" "S", .moveWindow "w1" "1", .moveWindow "w2" "1",
        .flattenWorkspace "1", .setLayout .v_tiles "w1",
        .focusWindow "w2", .joinWithPrevious "w2", .switchToWorkspace "1"]
    ∧ runAB.1.countP isJoin = 0
    ∧ runAB.1.countP isLaunch = 2 := by
  rw [runAB_eval]
  decide

/-- Claim C2 (corrected).  With both applications already running, the
run of the scenario issues exactly: stash-clear of workspace 1, launch
request plus move for A, launch request plus move for B (`ensure` always
issues `open -b`, since its probe can never report the application as
running), flatten of 1, layout mode v_tiles on the first workspace
window, switch to workspace 1, and finishes without error - with no
focus or join of B (the root sequence sits at depth 0, where the arrange
pass joins nothing) and no resize calls. -/
theorem end_to_end_actual_sequence :
    runAB = ([.moveWindow "w0" "S", .launch "A", .moveWindow "w1" "1",
      .launch "B", .moveWindow "w2" "1", .flattenWorkspace "1",
      .setLayout .v_tiles "w1", .switchToWorkspace "1"], none)
    ∧ runAB.1.countP isResize = 0 := by
  rw [runAB_eval]
  exact ⟨rfl, by decide⟩

/-- Claim C3 (code bug).  The liveness probe of `ensureWindow` is broken:
`grep -q` prints nothing, so `isRunning` is always false.  An application
that is already running therefore still receives an `open -b` launch
request; an application that is not running makes the probe pipeline -
which has no `.nothrow()` - throw, aborting the whole run before any
launch, so its leaf is fatal rather than skipped, contrary to the claim.
The remaining conjuncts show the part of the claim the code honours when
every application is running: the pass then finishes without error, one
move is issued per pre-order window leaf whose poll succeeds and none for
a leaf whose poll stays empty (skip, not fatal), one launch per leaf, and
the poll returns nothing exactly when every attempt below the
`maxAttempts` ceiling finds nothing. -/
theorem materialize_probe_bug :
    launchIfNotRunning true "X" = .ok [.launch "X"]
    ∧ launchIfNotRunning false "X" = .error "grep -q true exited with code 1"
    ∧ traverseTreeMove (fun _ => false) exFind "1" [.window "X" none]
        = ([], some "grep -q true exited with code 1")
    ∧ (∀ (find : String → Nat → Option String) (ws : String) (t : List LayoutItem),
        (traverseTreeMove (fun _ => true) find ws t).2 = none
        ∧ ((traverseTreeMove (fun _ => true) find ws t).1).filter isMove
            = (preorderBundleIds t).filterMap
                (fun b => (ensureWindowId (find b)).map (fun id => Call.moveWindow id ws))
        ∧ ((traverseTreeMove (fun _ => true) find ws t).1).filter isLaunch
            = (preorderBundleIds t).map Call.launch)
    ∧ (∀ find : Nat → Option String,
        (ensureWindowId find = none ↔ ∀ k, k < maxAttempts → find k = none)) := by
  refine ⟨rfl, rfl, ?_, move_allRunning_spec, ?_⟩
  · simp [traverseTreeMove, ensureWindow, launchIfNotRunning]
  · intro find
    rw [ensureWindowId, ensureAttempts_none_iff find maxAttempts 0]
    constructor
    · intro h k hk; exact h k (Nat.zero_le k) (by omega)
    · intro h k _ hk; exact h k (by omega)

/-- Claim C3: the skip-not-fatal discipline at a concrete input, on the
all-running side of the bug.  Leaf D never produces a window id within
the poll ceiling, so it is skipped while A and B are moved in pre-order;
every leaf, running or not, gets a launch request. -/
theorem materialize_probe_bug_witness :
    ((traverseTreeMove (fun _ => true) exFind "1"
        [.window "A" none, .group .horizontal none [.window "B" none],
          .window "D" none]).1).filter isMove
      = [.moveWindow "w1" "1", .moveWindow "w2" "1"]
    ∧ ((traverseTreeMove (fun _ => true) exFind "1"
        [.window "A" none, .group .horizontal none [.window "B" none],
          .window "D" none]).1).filter isLaunch
      = [.launch "A", .launch "B", .launch "D"] := by
  have h := materialize_probe_bug.2.2.2.1 exFind "1"
    [.window "A" none, .group .horizontal none [.window "B" none], .window "D" none]
  refine ⟨?_, ?_⟩
  · rw [h.2.1]
    simp [preorderBundleIds, ensureWindowId, ensureAttempts, maxAttempts, exFind, exWinId]
  · rw [h.2.2]
    simp [preorderBundleIds]

/-- Claim C4 (code bug).  With no display selector and a single main
display available, `selectDisplay` does not return the main display: the
dispatch block is skipped, `selectedDisplay` stays undefined, and the
final guard throws - even though the thrown message itself says
"Defaulting to the main display" and the README documents that by default
the layout is applied to the primary display.  The second conjunct shows
the fallback the claim expects was available. -/
theorem absent_selector_throws_despite_main :
    selectDisplay (fun _ _ => false) none [dMain]
      = .error "Display not found. Please specify a valid display name, alias, or ID. Defaulting to the main display."
    ∧ [dMain].find? (fun d => d.isMain) = some dMain := ⟨rfl, rfl⟩

/-- Claim C5 (confirmed).  Alias secondary: fewer than 2 displays warns
and falls back to the main display without an error; more than 2 displays
is a fatal error; exactly 2 displays returns the single non-main
display. -/
theorem secondary_alias_resolution :
    (∀ (ds : List DisplayInfo) (m : DisplayInfo), ds.length < 2 → m ∈ ds → m.isMain = true →
        ∃ d, getDisplayByAlias .secondary ds
            = .ok (["Alias secondary is used, but only one display found. Defaulting to the main display."], some d)
          ∧ d.isMain = true)
    ∧ (∀ ds : List DisplayInfo, 2 < ds.length →
        ∃ e, getDisplayByAlias .secondary ds = .error e)
    ∧ (∀ (ds : List DisplayInfo) (d : DisplayInfo), ds.length = 2 → d ∈ ds → d.isMain = false →
        (∀ d2, d2 ∈ ds → d2.isMain = false → d2 = d) →
        getDisplayByAlias .secondary ds = .ok ([], some d)) := by
  refine ⟨?_, ?_, ?_⟩
  · intro ds m hlen hm hmain
    have hne : ds ≠ [] := List.ne_nil_of_mem hm
    have h1 : ds.length = 1 := by
      have := List.length_pos.mpr hne
      omega
    obtain ⟨a, rfl⟩ := List.length_eq_one.mp h1
    have hma : m = a := by simpa using hm
    subst hma
    refine ⟨m, ?_, hmain⟩
    simp [getDisplayByAlias, List.find?, hmain]
  · intro ds hlen
    refine ⟨"Alias secondary is used, but multiple secondary displays are found. Please specify an exact display name or use a different alias.", ?_⟩
    simp only [getDisplayByAlias]
    rw [if_neg (by omega), if_pos (by omega)]
  · intro ds d hlen hd hdm huniq
    obtain ⟨a, b, rfl⟩ := List.length_eq_two.mp hlen
    simp only [getDisplayByAlias]
    rw [if_neg (by simp), if_neg (by simp)]
    cases ha : a.isMain with
    | false =>
        have : a = d := huniq a (by simp) ha
        subst this
        simp [List.find?, ha]
    | true =>
        have hdb : d = b := by
          rcases (by simpa using hd : d = a ∨ d = b) with rfl | rfl
          · rw [ha] at hdm; exact absurd hdm (by simp)
          · rfl
        subst hdb
        simp [List.find?, ha, hdm]

/-- Claim C5, witness: one display falls back to it as main with the
warning; three displays error; main plus one external resolves to the
external one. -/
theorem secondary_alias_resolution_witness :
    (∃ d, getDisplayByAlias .secondary [dMain]
        = .ok (["Alias secondary is used, but only one display found. Defaulting to the main display."], some d)
      ∧ d.isMain = true)
    ∧ (∃ e, getDisplayByAlias .secondary [dMain, dExt, dExt2] = .error e)
    ∧ getDisplayByAlias .secondary [dMain, dExt] = .ok ([], some dExt) :=
  ⟨secondary_alias_resolution.1 [dMain] dMain (by decide) (by decide) (by decide),
   secondary_alias_resolution.2.1 [dMain, dExt, dExt2] (by decide),
   secondary_alias_resolution.2.2 [dMain, dExt] dExt (by decide) (by decide) (by decide)
     (by decide)⟩

/-- Claim C6 (confirmed).  Alias external: no non-internal display warns
and falls back to the main display; exactly one non-internal display is
returned; two or more non-internal displays is a fatal error. -/
theorem external_alias_resolution :
    (∀ (ds : List DisplayInfo) (m : DisplayInfo),
        (ds.filter (fun d => !d.isInternal)).length = 0 → m ∈ ds → m.isMain = true →
        ∃ d, getDisplayByAlias .external ds
            = .ok (["Alias external is used, but no external displays found. Defaulting to the main display."], some d)
          ∧ d.isMain = true)
    ∧ (∀ (ds : List DisplayInfo) (d : DisplayInfo),
        ds.filter (fun d => !d.isInternal) = [d] →
        getDisplayByAlias .external ds = .ok ([], some d))
    ∧ (∀ ds : List DisplayInfo, 1 < (ds.filter (fun d => !d.isInternal)).length →
        ∃ e, getDisplayByAlias .external ds = .error e) := by
  refine ⟨?_, ?_, ?_⟩
  · intro ds m hfilter hm hmain
    have hs : (ds.find? fun d => d.isMain).isSome := by
      rw [List.find?_isSome]
      exact ⟨m, hm, hmain⟩
    obtain ⟨d, hd⟩ := Option.isSome_iff_exists.mp hs
    refine ⟨d, ?_, List.find?_some hd⟩
    simp only [getDisplayByAlias]
    rw [hd]
    simp [hfilter]
  · intro ds d hfilter
    simp only [getDisplayByAlias]
    rw [hfilter]
    simp
  · intro ds hlen
    refine ⟨"Multiple external displays found. Please specify an exact display name or use a different alias.", ?_⟩
    simp only [getDisplayByAlias]
    have h0 : ((ds.filter (fun d => !d.isInternal)).length == 0) = false := by
      have hne : (ds.filter (fun d => !d.isInternal)).length ≠ 0 := by omega
      simpa using hne
    simp [h0, hlen]

/-- Claim C6, witness: an all-internal inventory falls back to main with
the warning; main-internal plus one external resolves to the external
one; two externals error. -/
theorem external_alias_resolution_witness :
    (∃ d, getDisplayByAlias .external [dMain]
        = .ok (["Alias external is used, but no external displays found. Defaulting to the main display."], some d)
      ∧ d.isMain = true)
    ∧ getDisplayByAlias .external [dMain, dExt] = .ok ([], some dExt)
    ∧ (∃ e, getDisplayByAlias .external [dMain, dExt, dExt2] = .error e) :=
  ⟨external_alias_resolution.1 [dMain] dMain (by decide) (by decide) (by decide),
   external_alias_resolution.2.1 [dMain, dExt] dExt (by decide),
   external_alias_resolution.2.2 [dMain, dExt, dExt2] (by decide)⟩

/-- Claim C7 (code bug).  The empty-inventory guard of the main body never
fires: `getDisplays()` returns an array and `!array` is false even for an
empty array, so no "No displays found" error is raised at enumeration.
The run still aborts with an empty inventory, but only later, inside
`selectDisplay`, with a "Display not found" error, whatever the selector. -/
theorem empty_display_inventory_guard_dead :
    noDisplaysGuardFires [] = false
    ∧ (∀ (nameTest : String → String → Bool) (sel : Option DisplaySelector),
        ∃ e, selectDisplay nameTest sel [] = .error e) := by
  refine ⟨rfl, ?_⟩
  intro nameTest sel
  match sel with
  | none => exact ⟨_, rfl⟩
  | some (.aliasSel .main) => exact ⟨_, rfl⟩
  | some (.aliasSel .secondary) => exact ⟨_, rfl⟩
  | some (.aliasSel .external) => exact ⟨_, rfl⟩
  | some (.aliasSel .internal) => exact ⟨_, rfl⟩
  | some (.byName p) => exact ⟨_, rfl⟩
  | some (.byId i) => exact ⟨_, rfl⟩

/-- Claim C9, counterexample.  A root-level group (no enclosing group)
with orientation horizontal and size 1/2, first child window C, under a
layout whose root orientation is vertical: the claim says the dimension
comes from the Group's own orientation (horizontal, so width, 960 px on a
1920-wide display); the code uses the layout root orientation instead and
issues a height resize of 540 px on the 1080-high display. -/
theorem root_group_resize_uses_layout_orientation :
    traverseTreeResize exWinId (some 1920) (some 1080) .vertical
        [.group .horizontal (some ⟨some 1, some 2⟩) [.window "C" none]] none
      = [.resize (some "w3") .height 540]
    ∧ Call.resize (some "w3") .width 960 ∉
        traverseTreeResize exWinId (some 1920) (some 1080) .vertical
          [.group .horizontal (some ⟨some 1, some 2⟩) [.window "C" none]] none := by
  have h : traverseTreeResize exWinId (some 1920) (some 1080) .vertical
      [.group .horizontal (some ⟨some 1, some 2⟩) [.window "C" none]] none
      = [.resize (some "w3") .height 540] := by
    simp [traverseTreeResize, groupHeadResizeCalls, windowResizeCalls, resizeWindow,
      exWinId, jsFalsyNum, newWidth, getDimension, dimensionOfOrientation]
  refine ⟨h, ?_⟩
  rw [h]
  decide

/-- Claim C9 (corrected).  For a Group with a size whose first child is a
Window, the group's fraction is applied to that first child's window: the
dimension comes from the parent's orientation context when an enclosing
Group exists, and from the Layout's root orientation - not the Group's
own orientation - otherwise. -/
theorem group_size_representative_resize :
    (∀ (winId : String → Option String) (w h n d0 : Nat) (root po o : Orientation)
        (psz : Option Size) (pch : List LayoutItem) (b : String)
        (bsz : Option Size) (grest rest : List LayoutItem),
        0 < w → 0 < h → 0 < n → 0 < d0 →
        (traverseTreeResize winId (some w) (some h) root
            (.group o (some ⟨some n, some d0⟩) (.window b bsz :: grest) :: rest)
            (some (.group po psz pch))).head?
          = some (.resize (winId b) (dimensionOfOrientation po)
              (newWidth (match dimensionOfOrientation po with
                         | .width => w
                         | .height => h) n d0)))
    ∧ (∀ (winId : String → Option String) (w h n d0 : Nat) (root o : Orientation)
        (b : String) (bsz : Option Size) (grest rest : List LayoutItem),
        0 < w → 0 < h → 0 < n → 0 < d0 →
        (traverseTreeResize winId (some w) (some h) root
            (.group o (some ⟨some n, some d0⟩) (.window b bsz :: grest) :: rest)
            none).head?
          = some (.resize (winId b) (dimensionOfOrientation root)
              (newWidth (match dimensionOfOrientation root with
                         | .width => w
                         | .height => h) n d0))) := by
  constructor
  · intro winId w h n d0 root po o psz pch b bsz grest rest hw hh hn hd0
    rw [traverseTreeResize]
    cases po <;>
      simp [groupHeadResizeCalls, resizeWindow, getDimension, dimensionOfOrientation,
        jsFalsyNum, hw.ne.symm, hh.ne.symm, hn.ne.symm, hd0.ne.symm]
  · intro winId w h n d0 root o b bsz grest rest hw hh hn hd0
    rw [traverseTreeResize]
    cases root <;>
      simp [groupHeadResizeCalls, resizeWindow, getDimension, dimensionOfOrientation,
        jsFalsyNum, hw.ne.symm, hh.ne.symm, hn.ne.symm, hd0.ne.symm]

/-- Claim C9, witness: a sized group under a vertical parent group resizes
its first child's window along height; the same group at the root of a
horizontal layout resizes along width. -/
theorem group_size_representative_resize_witness :
    (traverseTreeResize exWinId (some 1920) (some 1080) .horizontal
        [.group .horizontal (some ⟨some 1, some 2⟩) [.window "C" none]]
        (some (.group .vertical none []))).head?
      = some (.resize (some "w3") .height (newWidth 1080 1 2))
    ∧ (traverseTreeResize exWinId (some 1920) (some 1080) .horizontal
        [.group .vertical (some ⟨some 1, some 2⟩) [.window "C" none]]
        none).head?
      = some (.resize (some "w3") .width (newWidth 1920 1 2)) :=
  ⟨group_size_representative_resize.1 exWinId 1920 1080 1 2 .horizontal .vertical
      .horizontal none [] "C" none [] [] (by decide) (by decide) (by decide) (by decide),
   group_size_representative_resize.2 exWinId 1920 1080 1 2 .horizontal .vertical
      "C" none [] [] (by decide) (by decide) (by decide) (by decide)⟩

/-- Claim C10 (confirmed).  When the screen extent for the chosen
dimension is unavailable or zero, or the parsed numerator or denominator
is a non-number or zero, `resizeWindow` returns without issuing any
resize command (the guard precedes the division in the source); and the
resize pass always continues with the remaining siblings: the trace of
the rest of the list is a suffix of the trace of the whole list. -/
theorem resize_guard_skips_and_continues :
    (∀ (sW sH : Option Nat) (wid : Option String) (sz : Size) (dim : Dimension),
        (jsFalsyNum (match dim with | .width => sW | .height => sH)
          || jsFalsyNum sz.num || jsFalsyNum sz.den) = true →
        resizeWindow sW sH wid sz dim = [])
    ∧ (∀ (winId : String → Option String) (sW sH : Option Nat) (root : Orientation)
        (item : LayoutItem) (rest : List LayoutItem) (parent : Option LayoutItem),
        traverseTreeResize winId sW sH root rest parent <:+
          traverseTreeResize winId sW sH root (item :: rest) parent) := by
  constructor
  · intro sW sH wid sz dim hguard
    simp only [resizeWindow]
    rw [if_pos hguard]
  · intro winId sW sH root item rest parent
    cases item with
    | window b sz? =>
        rw [traverseTreeResize]
        exact ⟨_, rfl⟩
    | group o sz? children =>
        rw [traverseTreeResize]
        exact ⟨_, rfl⟩

/-- Claim C10, witness: an unavailable width extent skips the resize of a
sized leaf, and the pass goes on to resize the next sibling. -/
theorem resize_guard_skips_and_continues_witness :
    resizeWindow none (some 1080) (some "w3") ⟨some 1, some 2⟩ .width = []
    ∧ traverseTreeResize exWinId none (some 1080) .vertical
        [.window "B" (some ⟨some 1, some 2⟩)] none <:+
      traverseTreeResize exWinId none (some 1080) .vertical
        [.window "C" (some ⟨some 0, some 2⟩), .window "B" (some ⟨some 1, some 2⟩)] none :=
  ⟨resize_guard_skips_and_continues.1 none (some 1080) (some "w3") ⟨some 1, some 2⟩
      .width (by decide),
   resize_guard_skips_and_continues.2 exWinId none (some 1080) .vertical
      (.window "C" (some ⟨some 0, some 2⟩)) [.window "B" (some ⟨some 1, some 2⟩)] none⟩

end ALM
